import Mathlib

/-!
Verification of the iterate_swarm feedback pipeline against its specification.

The definitions below are a shallow embedding of the Go gateway
(`internal/api/handlers.go` and its sibling version), the Temporal workflow and
activities (`internal/workflow/activities.go`), the retry helper
(`internal/retry/retry.go`), the Redpanda client
(`internal/redpanda/client.go`), and the TypeScript webhook routes
(`fullstack/src/app/api/webhooks/...`).  Library calls (HMAC, Kafka transport,
Discord, GitHub) are modelled as opaque function parameters or explicit outcome
inputs; everything the repository itself computes is translated directly.
-/

deriving instance DecidableEq for Except

namespace IterateSwarm

/-! ## Go string split

`strings.Split(s, ":")` for a one-character separator: splits around every
occurrence of the separator; `Split("", sep)` yields `[""]`. -/

/-- Splits a character list around every occurrence of `sep`, Go
`strings.Split` style: the result always has one more element than the number
of separator occurrences. -/
def splitOnCharAux (sep : Char) : List Char → List (List Char)
  | [] => [[]]
  | c :: rest =>
    let r := splitOnCharAux sep rest
    if c = sep then [] :: r
    else
      match r with
      | [] => [[c]]
      | g :: gs => (c :: g) :: gs

/-- Go `strings.Split(s, sep)` for a single-character separator. -/
def goSplit (s : String) (sep : Char) : List String :=
  (splitOnCharAux sep s.data).map String.mk

/-! ## Correlation identifiers

`SendDiscordApproval` (activities.go) builds the button custom ids with
`fmt.Sprintf("approve_%s", input.WorkflowRunID)` and
`fmt.Sprintf("reject_%s", input.WorkflowRunID)`: decision and workflow id are
joined with an underscore.  `HandleInteraction` (part_002) splits the custom id
on `":"`. -/

/-- The custom-id construction shared by the approve and reject buttons in
`SendDiscordApproval`: `fmt.Sprintf("%s_%s", decision, workflowRunID)`. -/
def encodeCorrelation (decision wfid : String) : String :=
  decision ++ "_" ++ wfid

/-- The custom-id split in `HandleInteraction` (part_002):
`parts := strings.Split(customID, ":")`, `action := parts[0]`,
`workflowID := parts[1]` when `len(parts) > 1`, else the empty string. -/
def parseCorrelation (customID : String) : (String × String) :=
  let parts := goSplit customID ':'
  (parts.headD "", parts.getD 1 "")

/-! ## Retry helper (`internal/retry/retry.go`)

`SimpleRetry` runs `fn` up to `MaxRetries + 1 = 4` times (the delays between
attempts are irrelevant to the claims), returning `nil` on the first success
and a wrapped error after the last failure.  The attempt outcomes are supplied
as a function of the attempt index; a state-threading variant records the
side effects each attempt performs on an external system. -/

/-- `SimpleRetry` with `remaining` further attempts allowed after the current
one; the current attempt index is `attempt`. -/
def simpleRetryFrom {α : Type} (fn : Nat → Except String α) :
    Nat → Nat → Except String α
  | attempt, 0 =>
    match fn attempt with
    | .ok a => .ok a
    | .error e => .error ("retry failed after 4 attempts: " ++ e)
  | attempt, r + 1 =>
    match fn attempt with
    | .ok a => .ok a
    | .error _ => simpleRetryFrom fn (attempt + 1) r

/-- `retry.SimpleRetry` with the default config (`MaxRetries = 3`, so up to 4
attempts of `fn`). -/
def SimpleRetry {α : Type} (fn : Nat → Except String α) : Except String α :=
  simpleRetryFrom fn 0 3

/-- State-threading variant of `simpleRetryFrom`: each attempt may mutate an
external state `σ` (for example, create an issue on the tracker) even when the
call reports an error to the caller. -/
def simpleRetryStFrom {σ α : Type} (fn : σ → σ × Except String α) :
    σ → Nat → σ × Except String α
  | st, 0 =>
    match fn st with
    | (st', .ok a) => (st', .ok a)
    | (st', .error e) => (st', .error ("retry failed after 4 attempts: " ++ e))
  | st, r + 1 =>
    match fn st with
    | (st', .ok a) => (st', .ok a)
    | (st', .error _) => simpleRetryStFrom fn st' r

/-- `retry.SimpleRetry` over a stateful operation (default config: up to 4
attempts). -/
def SimpleRetrySt {σ α : Type} (fn : σ → σ × Except String α) (st : σ) :
    σ × Except String α :=
  simpleRetryStFrom fn st 3

/-! ## Workflow activities (`internal/workflow/activities.go`) -/

/-- Output of the `AnalyzeFeedback` activity (`AnalyzeFeedbackOutput`).  The
`Confidence` float is hard-coded to `0.85` in the source and irrelevant to the
claims, so it is carried as a rational. -/
structure AnalyzeFeedbackOutput where
  IsDuplicate : Bool
  Reasoning : String
  Title : String
  Severity : String
  IssueType : String
  Description : String
  Labels : List String
  Confidence : ℚ := 85 / 100
deriving DecidableEq, Repr

/-- Whether the `SendDiscordApproval` activity posted a chat message or
soft-skipped without posting. -/
inductive NotifyEffect where
  | skipped
  | posted
deriving DecidableEq, Repr

/-- Outcomes of the three retried Discord library calls inside
`SendDiscordApproval`, indexed by attempt number: `discordgo.New`,
`dg.Channel`, and `dg.ChannelMessageSendComplex`. -/
structure DiscordCallResults where
  sessionCreate : Nat → Except String Unit
  channelFetch : Nat → Except String Unit
  messageSend : Nat → Except String Unit

/-- The `SendDiscordApproval` activity.  `token` is `os.Getenv("DISCORD_BOT_TOKEN")`
(the empty string when the credential is absent).  When the token is empty the
activity logs a warning and returns `nil` — a soft-skip: success without
posting.  Otherwise each Discord call runs under `retry.SimpleRetry` and a
failure is wrapped and returned as the activity error. -/
def SendDiscordApproval (token : String) (calls : DiscordCallResults) :
    NotifyEffect × Except String Unit :=
  if token = "" then
    (NotifyEffect.skipped, .ok ())
  else
    match SimpleRetry calls.sessionCreate with
    | .error e => (NotifyEffect.skipped, .error ("failed to create Discord session: " ++ e))
    | .ok _ =>
      match SimpleRetry calls.channelFetch with
      | .error e => (NotifyEffect.skipped, .error ("failed to get Discord channel: " ++ e))
      | .ok _ =>
        match SimpleRetry calls.messageSend with
        | .error e => (NotifyEffect.skipped, .error ("failed to send Discord message: " ++ e))
        | .ok _ => (NotifyEffect.posted, .ok ())

/-- Input of the `CreateGitHubIssue` activity (`CreateGitHubIssueInput`).
Note: it carries no feedback id of any kind. -/
structure CreateGitHubIssueInput where
  Title : String
  Body : String
  Labels : List String
  RepoOwner : String
  RepoName : String
  Assignee : String
deriving DecidableEq, Repr

/-- The `github.IssueRequest` a publish call sends to the tracker. -/
structure IssueRequest where
  title : String
  body : String
  labels : List String
  assignee : Option String
deriving DecidableEq, Repr

/-- The issue request built by `CreateGitHubIssue`: the raw title and body,
the labels defaulted to `["ai-generated"]` when empty, and the assignee when
non-empty.  No idempotency marker is added anywhere. -/
def buildIssueRequest (input : CreateGitHubIssueInput) : IssueRequest :=
  { title := input.Title
    body := input.Body
    labels := if input.Labels = [] then ["ai-generated"] else input.Labels
    assignee := if input.Assignee = "" then none else some input.Assignee }

/-- The tracker's view: the list of issues created so far, in creation order. -/
structure TrackerState where
  issues : List IssueRequest
deriving DecidableEq, Repr

/-- The HTML URL GitHub assigns to issue number `n` of `owner/repo`. -/
def issueURL (owner repo : String) (n : Nat) : String :=
  "https://github.com/" ++ owner ++ "/" ++ repo ++ "/issues/" ++ toString n

/-- One attempt of `client.Issues.Create` inside the `SimpleRetry` loop of
`CreateGitHubIssue`, against a tracker that performs the create but loses the
response on the first `lostResponses` attempts (a partial-success call: the
issue exists server-side, the client sees an error).  The request carries no
idempotency token, so the tracker has nothing with which to collapse repeats:
every attempt appends a fresh issue.  The state also counts the attempts made. -/
def githubCreateAttempt (owner repo : String) (req : IssueRequest)
    (lostResponses : Nat) :
    TrackerState × Nat → (TrackerState × Nat) × Except String String :=
  fun s =>
    let st := s.1
    let attempt := s.2
    let st' : TrackerState := ⟨st.issues ++ [req]⟩
    if attempt < lostResponses then
      ((st', attempt + 1), .error "Post: context deadline exceeded")
    else
      ((st', attempt + 1), .ok (issueURL owner repo st'.issues.length))

/-- The `CreateGitHubIssue` activity.  `token`, `envOwner`, `envRepo` are
`os.Getenv("GITHUB_TOKEN")`, `os.Getenv("GITHUB_OWNER")`,
`os.Getenv("GITHUB_REPO")` (empty when unset).  Empty token soft-skips with an
empty URL.  Owner and repo fall back from the input to the environment, erroring
when both are empty.  The create is retried with `retry.SimpleRetry`; on
success the issue HTML URL is returned.  The tracker side effects are threaded
through `TrackerState`. -/
def CreateGitHubIssue (token envOwner envRepo : String)
    (input : CreateGitHubIssueInput) (lostResponses : Nat)
    (st : TrackerState) : TrackerState × Except String String :=
  if token = "" then
    (st, .ok "")
  else
    let owner := if input.RepoOwner = "" then envOwner else input.RepoOwner
    if owner = "" then
      (st, .error "GITHUB_OWNER not set and RepoOwner not provided")
    else
      let repo := if input.RepoName = "" then envRepo else input.RepoName
      if repo = "" then
        (st, .error "GITHUB_REPO not set and RepoName not provided")
      else
        let req := buildIssueRequest input
        let out := SimpleRetrySt (githubCreateAttempt owner repo req lostResponses) (st, 0)
        (out.1.1, out.2)

/-! ## The workflow (`FeedbackWorkflow`) -/

/-- The payload of a `user-action` signal as the workflow sees it: Temporal
decodes it into `interface{}`; the workflow's type assertion
`signalValue.(string)` succeeds only on the `str` form. -/
inductive SignalValue where
  | str (s : String)
  | nonString
deriving DecidableEq, Repr

/-- The `approved` computation of `FeedbackWorkflow`: a signal was received,
its payload is a string, and that string equals `"approve"`. -/
def signalApproved : Option SignalValue → Bool
  | some (SignalValue.str s) => s = "approve"
  | some SignalValue.nonString => false
  | none => false

/-- The suspension points / activity invocations of one `FeedbackWorkflow`
execution, in program order. -/
inductive Step where
  | analyze
  | notify
  | waitSignal
  | publish
deriving DecidableEq, Repr

/-- Outcomes of the activities and of the signal wait for one workflow
execution, as the workflow observes them.  `signal` is `none` when the
5-minute `AwaitWithTimeout` fires with no signal received. -/
structure WorkflowEnv where
  analyzeResult : Except String AnalyzeFeedbackOutput
  notifyResult : Except String Unit
  signal : Option SignalValue
  publishResult : Except String String
deriving DecidableEq, Repr

/-- `FeedbackWorkflow` (activities.go): analyze; return on error; return `nil`
immediately when `IsDuplicate`; notify; return on error; wait for the
`user-action` signal with a 5-minute timeout; return `nil` unless the payload
is the string `"approve"`; publish and return its error.  The returned trace
lists the steps reached in order. -/
def FeedbackWorkflow (env : WorkflowEnv) : List Step × Except String Unit :=
  match env.analyzeResult with
  | .error e => ([Step.analyze], .error e)
  | .ok ar =>
    if ar.IsDuplicate then
      ([Step.analyze], .ok ())
    else
      match env.notifyResult with
      | .error e => ([Step.analyze, Step.notify], .error e)
      | .ok _ =>
        if signalApproved env.signal then
          match env.publishResult with
          | .error e =>
            ([Step.analyze, Step.notify, Step.waitSignal, Step.publish], .error e)
          | .ok _ =>
            ([Step.analyze, Step.notify, Step.waitSignal, Step.publish], .ok ())
        else
          ([Step.analyze, Step.notify, Step.waitSignal], .ok ())

/-! ## Gateway handlers (`internal/api`, part_002) -/

/-- The decoded webhook body (`FeedbackRequest`). -/
structure FeedbackRequest where
  Text : String
  Source : String
  UserID : String
  Username : String
deriving DecidableEq, Repr

/-- The event map `HandleDiscordWebhook` marshals and publishes: note the
constant `"source": "discord"`. -/
structure FeedbackEventRecord where
  feedback_id : String
  text : String
  source : String
  user_id : String
  username : String
  timestamp : String
deriving DecidableEq, Repr

/-- A Kafka record as built by the Redpanda client
(`internal/redpanda/client.go`): the key is
`[]byte(time.Now().Format(time.RFC3339))` — the send-time wall clock, not the
feedback id.  The value (the JSON-marshalled event) is kept structured. -/
structure KafkaMessage where
  topic : String
  key : String
  value : FeedbackEventRecord
deriving DecidableEq, Repr

/-- `Client.PublishToTopic` / `Client.Publish`: both construct the message
with `Key: []byte(time.Now().Format(time.RFC3339))`. -/
def publishMessage (topic nowRFC3339 : String) (event : FeedbackEventRecord) :
    KafkaMessage :=
  { topic := topic, key := nowRFC3339, value := event }

/-- The event map built by `HandleDiscordWebhook`: a fresh `feedback_id`, the
request text, the hard-coded source `"discord"`, the request user fields, and
the current UTC time. -/
def buildFeedbackEvent (req : FeedbackRequest) (feedbackID nowRFC3339 : String) :
    FeedbackEventRecord :=
  { feedback_id := feedbackID
    text := req.Text
    source := "discord"
    user_id := req.UserID
    username := req.Username
    timestamp := nowRFC3339 }

/-- The gateway's HTTP outcome for a webhook request. -/
inductive GatewayResponse where
  | badRequest (msg : String)
  | serverError (msg : String)
  | accepted (feedbackID : String)
deriving DecidableEq, Repr

/-- `HandleDiscordWebhook` (part_002 / handlers.go): reject empty text with
400; otherwise build the event, publish it to `feedback-events`, 500 when the
broker write fails, else 202 with the fresh feedback id.  `feedbackID` stands
for the generated UUID and `nowRFC3339` for the wall clock; `publishOk` is the
broker write outcome.  The second component is the record handed to the
broker, `none` when nothing was enqueued. -/
def HandleDiscordWebhook (req : FeedbackRequest) (feedbackID nowRFC3339 : String)
    (publishOk : Bool) : GatewayResponse × Option KafkaMessage :=
  if req.Text = "" then
    (GatewayResponse.badRequest "Missing text field", none)
  else
    let event := buildFeedbackEvent req feedbackID nowRFC3339
    let msg := publishMessage "feedback-events" nowRFC3339 event
    if publishOk then
      (GatewayResponse.accepted feedbackID, some msg)
    else
      (GatewayResponse.serverError "Failed to queue event", none)

/-- The decoded interaction body (`InteractionRequest`); its `Type` field — a
Lean keyword, so named `type` here — is `1` for Discord's ping. -/
structure InteractionRequest where
  type : Nat
  CustomID : String
  UserID : String
  ChannelID : String
deriving DecidableEq, Repr

/-- The interaction handler's HTTP outcome. -/
inductive InteractionResponse where
  | pong
  | serverError (msg : String)
  | ack
deriving DecidableEq, Repr

/-- A signal the handler sends to Temporal. -/
structure SignalSent where
  workflowID : String
  signalName : String
  payload : String
deriving DecidableEq, Repr

/-- `HandleInteraction` (part_002): answer pings in kind; otherwise split the
custom id with `parseCorrelation` and signal the parsed workflow on channel
`user-action` with the parsed action — whatever it is, with no validation —
responding 500 when the signal call errors and otherwise acknowledging with
the type-4 message.  The second component is the signal the handler attempted. -/
def HandleInteraction (req : InteractionRequest) (signalOk : Bool) :
    InteractionResponse × Option SignalSent :=
  if req.type = 1 then
    (InteractionResponse.pong, none)
  else
    let parsed := parseCorrelation req.CustomID
    let sent : SignalSent := ⟨parsed.2, "user-action", parsed.1⟩
    if signalOk then
      (InteractionResponse.ack, some sent)
    else
      (InteractionResponse.serverError "Failed to process action", some sent)

/-! ## Webhook signature verification (fullstack routes)

The HMAC-SHA-256 primitive (`crypto.createHmac(...).digest("hex")`) is a
library call; it is passed in as an opaque function from key and message to the
hex digest.  `crypto.timingSafeEqual` throws on length mismatch (caught,
yielding `false`) and otherwise compares byte-equal, so on equal-purpose inputs
it is Boolean equality of the compared strings. -/

/-- `crypto.timingSafeEqual` on the two signature strings: equality (the
length-mismatch throw is caught and returned as `false`). -/
def timingSafeEq (a b : String) : Bool :=
  if a = b then true else false

/-- `verifyDiscordSignature` (`fullstack/src/app/api/webhooks/discord/route.ts`):
requires the secret and both headers to be present, then compares the
`x-signature-ed25519` header against the HMAC-SHA-256 hex digest of
`timestamp + body` under `DISCORD_WEBHOOK_SECRET`.  Despite the header name, no
Ed25519 verification happens, and no timestamp freshness check of any kind is
performed: the current clock is not an input at all. -/
def verifyDiscordSignature (hmacHex : String → String → String)
    (secret : Option String) (sigHeader tsHeader : Option String)
    (body : String) : Bool :=
  match secret with
  | none => false
  | some sec =>
    match sigHeader, tsHeader with
    | some sig, some ts => timingSafeEq sig (hmacHex sec (ts ++ body))
    | some _, none => false
    | none, _ => false

/-- Accumulates the leading decimal digits of a character list onto `acc`,
stopping at the first non-digit — the digit-consuming loop of JavaScript
`parseInt(s, 10)`. -/
def leadingNatGo : List Char → Nat → Nat
  | [], acc => acc
  | c :: rest, acc =>
    if c.isDigit then leadingNatGo rest (acc * 10 + (c.toNat - 48)) else acc

/-- The leading decimal number of a character list, `none` when the first
character is not a digit (JavaScript `parseInt` yields `NaN` there). -/
def leadingNat : List Char → Option Nat
  | [] => none
  | c :: rest =>
    if c.isDigit then some (leadingNatGo rest (c.toNat - 48)) else none

/-- JavaScript `parseInt(s, 10)`: an optional leading minus sign, then the
leading digits, ignoring any trailing garbage; `none` stands for `NaN`.
(Leading whitespace, `+`, and radix prefixes are irrelevant to the header
values in play and are not modelled.) -/
def parseIntJS (s : String) : Option Int :=
  match s.data with
  | '-' :: rest => (leadingNat rest).map (fun n => -(n : Int))
  | l => (leadingNat l).map (fun n => (n : Int))

/-- The freshness test in `verifySlackSignature`: requests with
`Math.abs(now - parseInt(timestamp)) > 300` are rejected.  When the timestamp
does not parse, the JavaScript comparison against `NaN` is `false`, so the
request is not rejected on freshness grounds. -/
def slackFresh (now : Int) (ts : String) : Bool :=
  match parseIntJS ts with
  | some rt => !((now - rt).natAbs > 300)
  | none => true

/-- `verifySlackSignature` (`part_005`): requires the secret and both headers,
rejects stale timestamps (over 300 s away from `now`), then compares the
`x-slack-signature` header with `"v0=" + hmacSHA256hex(secret, "v0:" + ts +
":" + body)` using `crypto.timingSafeEqual`. -/
def verifySlackSignature (hmacHex : String → String → String)
    (secret : Option String) (sigHeader tsHeader : Option String)
    (body : String) (now : Int) : Bool :=
  match secret with
  | none => false
  | some sec =>
    match sigHeader, tsHeader with
    | some sig, some ts =>
      if slackFresh now ts then
        timingSafeEq ("v0=" ++ hmacHex sec ("v0:" ++ ts ++ ":" ++ body)) sig
      else
        false
    | some _, none => false
    | none, _ => false

/-- A concrete injective stand-in for the library HMAC-SHA-256 hex digest,
used to instantiate the opaque `hmacHex` parameter in closed statements. -/
def hmacModel (key msg : String) : String :=
  "hmac-sha256[" ++ key ++ "|" ++ msg ++ "]"

/-! ## Concrete fixtures for witnesses and counterexamples -/

/-- A non-duplicate analysis result (the S1 scenario of the spec). -/
def sampleSpec : AnalyzeFeedbackOutput :=
  { IsDuplicate := false
    Reasoning := "new issue"
    Title := "App crashes on startup"
    Severity := "high"
    IssueType := "bug"
    Description := "Crash when launching the app"
    Labels := ["bug", "crash"] }

/-- A duplicate analysis result (the S2 scenario of the spec). -/
def sampleDuplicate : AnalyzeFeedbackOutput :=
  { sampleSpec with IsDuplicate := true, Reasoning := "sim=0.97" }

/-- Discord call outcomes where every library call would fail; used where the
calls are unreachable (missing token). -/
def unreachableDiscordCalls : DiscordCallResults :=
  { sessionCreate := fun _ => .error "unreachable"
    channelFetch := fun _ => .error "unreachable"
    messageSend := fun _ => .error "unreachable" }

/-! ## Helper lemmas -/

/-- The workflow treats a signal as an approval exactly when it is the string
payload `"approve"`. -/
theorem signalApproved_iff (s : Option SignalValue) :
    signalApproved s = true ↔ s = some (SignalValue.str "approve") := by
  cases s with
  | none => simp [signalApproved]
  | some v =>
    cases v with
    | str t => simp [signalApproved]
    | nonString => simp [signalApproved]

/-! ## Claims -/

/-- Claim C1 (code bug): the round-trip law
`parse_correlation(encode_correlation(decision, wfid)) = (decision, wfid)`
fails on the code.  `SendDiscordApproval` joins decision and workflow id with
an underscore (`fmt.Sprintf("approve_%s", ...)`) while `HandleInteraction`
splits the custom id on a colon, so parsing the encoded payload for decision
`"approve"` and workflow id `"workflow-u1-discord"` yields the whole custom id
as the decision and an empty workflow id — not the original pair. -/
theorem c1_correlation_roundtrip_fails :
    parseCorrelation (encodeCorrelation "approve" "workflow-u1-discord")
        = ("approve_workflow-u1-discord", "") ∧
    (("approve_workflow-u1-discord", "") : String × String)
        ≠ ("approve", "workflow-u1-discord") := by
  exact ⟨by decide, by decide⟩

/-- Claim C2 (confirmed): `CreateGitHubIssue` is reached only when a
`user-action` signal whose payload is the string `"approve"` was received
before the approval wait resolved; on a reject signal, any non-approve
payload, or timer expiry with no signal, the workflow never reaches the
publish step and (when analyze and notify succeeded) completes successfully. -/
theorem c2_no_publish_without_approval (env : WorkflowEnv) :
    (Step.publish ∈ (FeedbackWorkflow env).1 →
        env.signal = some (SignalValue.str "approve")) ∧
    (∀ ar, env.analyzeResult = .ok ar → env.notifyResult = .ok () →
        env.signal ≠ some (SignalValue.str "approve") →
        Step.publish ∉ (FeedbackWorkflow env).1 ∧
        (FeedbackWorkflow env).2 = .ok ()) := by
  obtain ⟨a, n, s, p⟩ := env
  constructor
  · intro hmem
    cases a with
    | error e => simp [FeedbackWorkflow] at hmem
    | ok ar =>
      by_cases hd : ar.IsDuplicate
      · simp [FeedbackWorkflow, hd] at hmem
      · cases n with
        | error e => simp [FeedbackWorkflow, hd] at hmem
        | ok u =>
          by_cases hs : signalApproved s
          · exact (signalApproved_iff s).mp hs
          · simp [FeedbackWorkflow, hd, hs] at hmem
  · intro ar hA hN hs
    simp only at hA hN
    subst hA
    subst hN
    have hb : signalApproved s = false := by
      cases hsa : signalApproved s with
      | false => rfl
      | true => exact absurd ((signalApproved_iff s).mp hsa) hs
    by_cases hd : ar.IsDuplicate
    · simp [FeedbackWorkflow, hd]
    · simp [FeedbackWorkflow, hd, hb]

/-- Witness for C2 at concrete inputs: with a `"reject"` string signal, the
publish step is not reached and the workflow completes successfully. -/
theorem c2_no_publish_without_approval_witness :
    Step.publish ∉
        (FeedbackWorkflow
          { analyzeResult := .ok sampleSpec
            notifyResult := .ok ()
            signal := some (SignalValue.str "reject")
            publishResult := .ok "https://github.com/acme/widget/issues/1" }).1 ∧
    (FeedbackWorkflow
          { analyzeResult := .ok sampleSpec
            notifyResult := .ok ()
            signal := some (SignalValue.str "reject")
            publishResult := .ok "https://github.com/acme/widget/issues/1" }).2
        = .ok () := by
  exact (c2_no_publish_without_approval _).2 sampleSpec rfl rfl (by decide)

/-- Claim C6 (confirmed): when the analyze activity reports a duplicate, the
workflow completes successfully at once — the trace is just the analyze step,
so the notify and publish activities are never invoked and the signal
wait/approval timer is never started. -/
theorem c6_duplicate_short_circuit (env : WorkflowEnv)
    (ar : AnalyzeFeedbackOutput) (hA : env.analyzeResult = .ok ar)
    (hd : ar.IsDuplicate = true) :
    FeedbackWorkflow env = ([Step.analyze], .ok ()) ∧
    Step.notify ∉ (FeedbackWorkflow env).1 ∧
    Step.publish ∉ (FeedbackWorkflow env).1 ∧
    Step.waitSignal ∉ (FeedbackWorkflow env).1 := by
  obtain ⟨a, n, s, p⟩ := env
  simp only at hA
  subst hA
  refine ⟨by simp [FeedbackWorkflow, hd], ?_, ?_, ?_⟩ <;>
    simp [FeedbackWorkflow, hd]

/-- Witness for C6 at a concrete duplicate analysis result. -/
theorem c6_duplicate_short_circuit_witness :
    FeedbackWorkflow
        { analyzeResult := .ok sampleDuplicate
          notifyResult := .error "never run"
          signal := none
          publishResult := .error "never run" }
      = ([Step.analyze], .ok ()) := by
  exact (c6_duplicate_short_circuit _ sampleDuplicate rfl rfl).1

/-- Counterexample to claim C4: with the Discord token absent, notify
soft-skips (succeeds without posting) and the workflow — far from terminating
as `Failed` — proceeds to the approval wait and, with no signal, completes
successfully. -/
theorem c4_soft_skip_not_failed_counterexample :
    SendDiscordApproval "" unreachableDiscordCalls
        = (NotifyEffect.skipped, .ok ()) ∧
    FeedbackWorkflow
        { analyzeResult := .ok sampleSpec
          notifyResult := (SendDiscordApproval "" unreachableDiscordCalls).2
          signal := none
          publishResult := .ok "https://github.com/acme/widget/issues/1" }
      = ([Step.analyze, Step.notify, Step.waitSignal], .ok ()) := by
  exact ⟨by decide, by decide⟩

/-- Claim C4 as amended: for every non-duplicate feedback processed while the
chat credential is absent, the notify activity soft-skips and the workflow
proceeds to the approval wait exactly as when notification succeeds; there is
no auto-approve-on-soft-skip path, so with no signal the workflow completes
successfully (it does not terminate as `Failed`, and publish is not run). -/
theorem c4_soft_skip_proceeds_to_wait (calls : DiscordCallResults)
    (env : WorkflowEnv) (ar : AnalyzeFeedbackOutput)
    (hA : env.analyzeResult = .ok ar) (hd : ar.IsDuplicate = false)
    (hn : env.notifyResult = (SendDiscordApproval "" calls).2)
    (hs : env.signal = none) :
    SendDiscordApproval "" calls = (NotifyEffect.skipped, .ok ()) ∧
    FeedbackWorkflow env = ([Step.analyze, Step.notify, Step.waitSignal], .ok ()) := by
  have hskip : SendDiscordApproval "" calls = (NotifyEffect.skipped, .ok ()) := by
    simp [SendDiscordApproval]
  refine ⟨hskip, ?_⟩
  obtain ⟨a, n, s, p⟩ := env
  simp only at hA hn hs
  subst hA hs
  rw [hskip] at hn
  simp only at hn
  subst hn
  simp [FeedbackWorkflow, hd, signalApproved]

/-- Witness for the amended C4 at concrete inputs. -/
theorem c4_soft_skip_proceeds_to_wait_witness :
    FeedbackWorkflow
        { analyzeResult := .ok sampleSpec
          notifyResult := (SendDiscordApproval "" unreachableDiscordCalls).2
          signal := none
          publishResult := .error "never run" }
      = ([Step.analyze, Step.notify, Step.waitSignal], .ok ()) := by
  exact (c4_soft_skip_proceeds_to_wait unreachableDiscordCalls _ sampleSpec
    rfl rfl rfl rfl).2

/-- A concrete publish input (the S1 scenario's issue). -/
def sampleIssueInput : CreateGitHubIssueInput :=
  { Title := "App crashes on startup"
    Body := "Crash when launching the app"
    Labels := ["bug", "crash"]
    RepoOwner := "acme"
    RepoName := "widget"
    Assignee := "" }

/-- Counterexample to claim C3: retrying publish after a partial-success
tracker call (the create happened server-side but the response was lost)
creates a second issue and returns the second issue's URL, not the first's —
and the request body sent is the raw input body, with no idempotency marker
embedded. -/
theorem c3_no_idempotency_counterexample :
    (CreateGitHubIssue "ghp-token" "" "" sampleIssueInput 1 ⟨[]⟩).1.issues.length
        = 2 ∧
    (CreateGitHubIssue "ghp-token" "" "" sampleIssueInput 1 ⟨[]⟩).2
        = .ok (issueURL "acme" "widget" 2) ∧
    issueURL "acme" "widget" 2 ≠ issueURL "acme" "widget" 1 ∧
    (buildIssueRequest sampleIssueInput).body = sampleIssueInput.Body := by
  refine ⟨by decide, by decide, by decide, rfl⟩

/-- Claim C3 as amended: `CreateGitHubIssue` computes no idempotency token —
its input carries no `feedback_id` and the tracker request body is the raw
issue body with no marker — and `SimpleRetry` blindly re-invokes the create,
so retrying after a partial-success tracker call creates a second issue and
yields the second issue's URL as `external_ref`. -/
theorem c3_retry_duplicates_issue (token envOwner envRepo : String)
    (input : CreateGitHubIssueInput) (ht : token ≠ "")
    (ho : input.RepoOwner ≠ "") (hr : input.RepoName ≠ "") :
    (buildIssueRequest input).body = input.Body ∧
    CreateGitHubIssue token envOwner envRepo input 1 ⟨[]⟩
      = (⟨[buildIssueRequest input, buildIssueRequest input]⟩,
         .ok (issueURL input.RepoOwner input.RepoName 2)) := by
  refine ⟨rfl, ?_⟩
  have hro : (if input.RepoOwner = "" then envOwner else input.RepoOwner)
      = input.RepoOwner := if_neg ho
  simp only [CreateGitHubIssue, if_neg ht, hro, if_neg ho, if_neg hr,
    SimpleRetrySt, simpleRetryStFrom, githubCreateAttempt]
  simp

/-- Witness for the amended C3 at concrete inputs. -/
theorem c3_retry_duplicates_issue_witness :
    CreateGitHubIssue "ghp-token" "" "" sampleIssueInput 1 ⟨[]⟩
      = (⟨[buildIssueRequest sampleIssueInput, buildIssueRequest sampleIssueInput]⟩,
         .ok (issueURL "acme" "widget" 2)) := by
  exact (c3_retry_duplicates_issue "ghp-token" "" "" sampleIssueInput
    (by decide) (by decide) (by decide)).2

/-- Claim C5 (code bug): the Source-A (Discord) route performs no Ed25519
verification and no replay-window check.  It compares the
`x-signature-ed25519` header against an HMAC-SHA-256 digest of
`timestamp + body` under a shared secret, and the current clock is not even an
input: a request whose timestamp is the epoch (`"0"`, vastly more than 300
seconds old relative to the concrete clock `1760000000`) verifies successfully
whenever the MAC matches. -/
theorem c5_discord_accepts_stale_timestamp :
    verifyDiscordSignature hmacModel (some "deploy-secret")
        (some (hmacModel "deploy-secret" ("0" ++ "discord-body")))
        (some "0") "discord-body" = true ∧
    ((1760000000 : Int) - 0 > 300) := by
  exact ⟨by decide, by decide⟩

/-- Claim C7 (confirmed): the Slack route accepts exactly the requests whose
`x-slack-signature` header equals `"v0=" + HMAC-SHA-256(secret,
"v0:" + timestamp + ":" + body)` (compared with `crypto.timingSafeEqual`),
and the 300-second replay window is applied at the boundary: at clock
`1000000`, the timestamp `"999700"` (exactly 300 s old) is accepted, while
`"999699"` (301 s old) is rejected whatever the signature. -/
theorem c7_slack_signature_and_window (hmacHex : String → String → String)
    (secret body : String) :
    verifySlackSignature hmacHex (some secret)
        (some ("v0=" ++ hmacHex secret ("v0:999700:" ++ body)))
        (some "999700") body 1000000 = true ∧
    (∀ sig, verifySlackSignature hmacHex (some secret) (some sig)
        (some "999699") body 1000000 = false) ∧
    (∀ sig, verifySlackSignature hmacHex (some secret) (some sig)
        (some "999700") body 1000000 = true →
      sig = "v0=" ++ hmacHex secret ("v0:999700:" ++ body)) := by
  have hfresh : slackFresh 1000000 "999700" = true := by decide
  have hstale : slackFresh 1000000 "999699" = false := by decide
  refine ⟨?_, ?_, ?_⟩
  · simp [verifySlackSignature, hfresh, timingSafeEq]
  · intro sig
    simp [verifySlackSignature, hstale]
  · intro sig h
    simp only [verifySlackSignature, hfresh, if_true, timingSafeEq] at h
    split at h
    · exact (by assumption : _ = sig).symm
    · exact absurd h (by simp)

/-- Witness for C7 at concrete inputs: the matching signature at the 300 s
boundary is accepted, a signature at 301 s is rejected, and the acceptance
hypothesis of the third conjunct is discharged by the first. -/
theorem c7_slack_signature_and_window_witness :
    verifySlackSignature hmacModel (some "slack-secret")
        (some ("v0=" ++ hmacModel "slack-secret" ("v0:999700:" ++ "payload")))
        (some "999700") "payload" 1000000 = true ∧
    verifySlackSignature hmacModel (some "slack-secret") (some "v0=forged")
        (some "999699") "payload" 1000000 = false ∧
    ("v0=" ++ hmacModel "slack-secret" ("v0:999700:" ++ "payload"))
        = "v0=" ++ hmacModel "slack-secret" ("v0:999700:" ++ "payload") := by
  obtain ⟨h1, h2, h3⟩ :=
    c7_slack_signature_and_window hmacModel "slack-secret" "payload"
  exact ⟨h1, h2 "v0=forged", h3 _ h1⟩

/-- Counterexample to claim C8: for an accepted webhook, the record handed to
the broker carries the RFC3339 send-time wall clock as its key — not the
event's `feedback_id`. -/
theorem c8_partition_key_counterexample :
    HandleDiscordWebhook
        { Text := "Login button is broken", Source := "discord"
          UserID := "u1", Username := "alice" }
        "4b8c0db0-1111-4222-8333-944444444444" "2026-10-11T00:00:00Z" true
      = (GatewayResponse.accepted "4b8c0db0-1111-4222-8333-944444444444",
         some
           { topic := "feedback-events"
             key := "2026-10-11T00:00:00Z"
             value :=
               { feedback_id := "4b8c0db0-1111-4222-8333-944444444444"
                 text := "Login button is broken"
                 source := "discord"
                 user_id := "u1"
                 username := "alice"
                 timestamp := "2026-10-11T00:00:00Z" } }) ∧
    "2026-10-11T00:00:00Z" ≠ "4b8c0db0-1111-4222-8333-944444444444" := by
  exact ⟨by decide, by decide⟩

/-- Claim C8 as amended: the record published for an accepted event uses the
RFC3339-formatted publish-time wall clock as its key, independent of the
event's `feedback_id`: two accepted events with distinct feedback ids
published at the same instant carry the same key. -/
theorem c8_partition_key_is_timestamp (req : FeedbackRequest)
    (fid fid' now : String) (h : req.Text ≠ "") :
    (HandleDiscordWebhook req fid now true).2
        = some (publishMessage "feedback-events" now
            (buildFeedbackEvent req fid now)) ∧
    (publishMessage "feedback-events" now (buildFeedbackEvent req fid now)).key
        = now ∧
    ((HandleDiscordWebhook req fid now true).2.map KafkaMessage.key
        = (HandleDiscordWebhook req fid' now true).2.map KafkaMessage.key) := by
  refine ⟨?_, rfl, ?_⟩ <;> simp [HandleDiscordWebhook, h, publishMessage]

/-- Witness for the amended C8 at concrete inputs. -/
theorem c8_partition_key_is_timestamp_witness :
    (HandleDiscordWebhook
        { Text := "Login button is broken", Source := "discord"
          UserID := "u1", Username := "alice" }
        "fid-a" "2026-10-11T00:00:00Z" true).2.map KafkaMessage.key
      = (HandleDiscordWebhook
        { Text := "Login button is broken", Source := "discord"
          UserID := "u1", Username := "alice" }
        "fid-b" "2026-10-11T00:00:00Z" true).2.map KafkaMessage.key := by
  exact (c8_partition_key_is_timestamp
    { Text := "Login button is broken", Source := "discord"
      UserID := "u1", Username := "alice" }
    "fid-a" "fid-b" "2026-10-11T00:00:00Z" (by decide)).2.2

/-- Counterexample to claim C9: on a non-ping interaction whose payload
decision `"foo"` is in neither `{approve, reject}`, the handler does not
respond 400 and does signal the orchestrator: it forwards `"foo"` to workflow
`"wf-1"` and acknowledges with the type-4 message. -/
theorem c9_no_decision_validation_counterexample :
    HandleInteraction
        { type := 2, CustomID := "foo:wf-1", UserID := "u1", ChannelID := "c1" }
        true
      = (InteractionResponse.ack,
         some { workflowID := "wf-1", signalName := "user-action", payload := "foo" }) ∧
    ("foo" ≠ "approve" ∧ "foo" ≠ "reject") := by
  exact ⟨by decide, by decide, by decide⟩

/-- Claim C9 as amended: on every non-ping interaction the handler splits the
payload on `":"` into (decision, workflow id) and forwards the decision as a
signal without validating it against `{approve, reject}`; it acknowledges with
the type-4 message whenever the signal call succeeds, and never responds 400
on an invalid decision. -/
theorem c9_forwards_unvalidated_decision (req : InteractionRequest)
    (signalOk : Bool) (h : req.type ≠ 1) :
    (HandleInteraction req signalOk).2
        = some
          { workflowID := (parseCorrelation req.CustomID).2
            signalName := "user-action"
            payload := (parseCorrelation req.CustomID).1 } ∧
    (signalOk = true → (HandleInteraction req signalOk).1 = InteractionResponse.ack) := by
  constructor
  · cases signalOk <;> simp [HandleInteraction, h]
  · intro hb
    subst hb
    simp [HandleInteraction, h]

/-- Witness for the amended C9 at concrete inputs. -/
theorem c9_forwards_unvalidated_decision_witness :
    (HandleInteraction
        { type := 2, CustomID := "garbage:wf-9", UserID := "u1", ChannelID := "c1" }
        true).1 = InteractionResponse.ack := by
  exact (c9_forwards_unvalidated_decision
    { type := 2, CustomID := "garbage:wf-9", UserID := "u1", ChannelID := "c1" }
    true (by decide)).2 rfl

/-- Claim C10 (confirmed): every record the Go gateway's
`HandleDiscordWebhook` hands to the broker carries the constant source
`"discord"`; the `Source` field of the request body is ignored entirely, so
the handler's outcome — response and published record — is unchanged under any
other source tag. -/
theorem c10_source_constant (req : FeedbackRequest) (fid now : String)
    (pubOk : Bool) (h : req.Text ≠ "") :
    (∀ msg, (HandleDiscordWebhook req fid now pubOk).2 = some msg →
        msg.value.source = "discord") ∧
    (∀ s', HandleDiscordWebhook { req with Source := s' } fid now pubOk
        = HandleDiscordWebhook req fid now pubOk) := by
  constructor
  · intro msg hmsg
    cases pubOk with
    | false => simp [HandleDiscordWebhook, h] at hmsg
    | true =>
      simp only [HandleDiscordWebhook, if_neg h, if_true, Option.some.injEq] at hmsg
      subst hmsg
      rfl
  · intro s'
    simp [HandleDiscordWebhook, buildFeedbackEvent, h]

/-- Witness for C10 at concrete inputs: the record published for a request
whose body claims source `"slack"` still carries source `"discord"`. -/
theorem c10_source_constant_witness :
    (publishMessage "feedback-events" "2026-10-11T00:00:00Z"
        (buildFeedbackEvent
          { Text := "hello", Source := "slack", UserID := "u1", Username := "bob" }
          "fid-1" "2026-10-11T00:00:00Z")).value.source = "discord" := by
  exact (c10_source_constant
    { Text := "hello", Source := "slack", UserID := "u1", Username := "bob" }
    "fid-1" "2026-10-11T00:00:00Z" true (by decide)).1 _ (by decide)

end IterateSwarm
